import Mathlib

/-!
Verification of the MCP Bedrock Knowledge Base server
(`src/mcp_bedrock_kb/server.py` and
`examples/phase-2-aws-integration/src/mcp_bedrock_kb/server.py`).

The Python functions `handle_list_tools`, `handle_call_tool` and
`query_knowledge_base` are embedded as pure Lean functions.  The AWS
backend call `bedrock_client.retrieve_and_generate` is modelled by a
`BackendOutcome` parameter: either the response value it returns, or the
exception it raises (`NoCredentialsError`, `ClientError` with a code and
message, or any other exception).
-/

namespace McpBedrockKb

/-- A `TextContent` content block (`mcp.types.TextContent`): a content
kind tag (always `"text"` here) and a payload string. -/
structure TextContent where
  type : String
  text : String
deriving DecidableEq, Repr

/-- Schema of a single property inside the tool input schema. -/
structure PropertySchema where
  type : String
  description : String
deriving DecidableEq, Repr

/-- The `inputSchema` dictionary of a tool descriptor. -/
structure InputSchema where
  type : String
  properties : List (String × PropertySchema)
  required : List String
deriving DecidableEq, Repr

/-- A tool descriptor (`mcp.types.Tool`). -/
structure Tool where
  name : String
  description : String
  inputSchema : InputSchema
deriving DecidableEq, Repr

/-- `ref['location']['s3Location']`: may carry a `uri` key. -/
structure S3Location where
  uri : Option String
deriving DecidableEq, Repr

/-- `ref['location']`: may carry an `s3Location` key. -/
structure RefLocation where
  s3Location : Option S3Location
deriving DecidableEq, Repr

/-- One element of a citation's `retrievedReferences` list. -/
structure RetrievedReference where
  location : Option RefLocation
deriving DecidableEq, Repr

/-- One element of the response's `citations` list; the
`retrievedReferences` key may be absent. -/
structure Citation where
  retrievedReferences : Option (List RetrievedReference)
deriving DecidableEq, Repr

/-- A successful `retrieve_and_generate` response:
`response['output']['text']` and the optional `citations` list. -/
structure KBResponse where
  outputText : String
  citations : Option (List Citation)
deriving DecidableEq, Repr

/-- Outcome of the backend call `bedrock_client.retrieve_and_generate`
(including client construction inside the same `try` block): a returned
response, or one of the raised exceptions the code catches. -/
inductive BackendOutcome where
  | success (resp : KBResponse)
  | noCredentials
  | clientError (code : String) (message : String)
  | otherError (msg : String)
deriving DecidableEq, Repr

/-- Python's `str.strip()` (for the whitespace characters Lean's
`Char.isWhitespace` recognises): drop whitespace from both ends. -/
def pyStrip (s : String) : String :=
  ⟨((s.data.dropWhile Char.isWhitespace).reverse.dropWhile Char.isWhitespace).reverse⟩

/-- The guard `if 'location' in ref and 's3Location' in ref['location']`
followed by `ref['location']['s3Location'].get('uri', 'Unknown source')`:
`none` when the reference is skipped, otherwise the source uri. -/
def refUri (ref : RetrievedReference) : Option String :=
  match ref.location with
  | some loc =>
    match loc.s3Location with
    | some s3 => some (s3.uri.getD "Unknown source")
    | none => none
  | none => none

/-- Body of the inner `for ref in citation['retrievedReferences']` loop:
append `f"\n{i}. {source_uri}"` when the reference carries an s3 location. -/
def appendRefLine (i : Nat) (acc : String) (ref : RetrievedReference) : String :=
  match refUri ref with
  | some uri => acc ++ "\n" ++ toString i ++ ". " ++ uri
  | none => acc

/-- Body of the outer `for i, citation in enumerate(response['citations'], 1)`
loop, guarded by `if 'retrievedReferences' in citation`. -/
def appendCitation (acc : String) (ic : Nat × Citation) : String :=
  match ic.2.retrievedReferences with
  | some refs => refs.foldl (appendRefLine ic.1) acc
  | none => acc

/-- The success-path formatting of `query_knowledge_base`: the base block
`f"**Query**: {query}\n\n**Answer**: {generated_text}"`, extended with the
sources section when `'citations' in response and response['citations']`
is truthy. -/
def formatSuccess (query : String) (resp : KBResponse) : String :=
  let base := "**Query**: " ++ query ++ "\n\n**Answer**: " ++ resp.outputText
  match resp.citations with
  | some cs =>
    if cs.isEmpty then base
    else (cs.enumFrom 1).foldl appendCitation (base ++ "\n\n**Sources**:")
  | none => base

/-- The guidance text returned for an empty / whitespace-only query. -/
def emptyQueryText : String :=
  "Please provide a query to search the Strands Agent documentation."

/-- Text returned when `NoCredentialsError` is raised. -/
def noCredentialsText : String :=
  "❌ AWS credentials not found. Please configure AWS CLI with \x27aws configure\x27 or set environment variables."

/-- Text returned when a `ClientError` with code `AccessDeniedException`
is raised. -/
def accessDeniedText : String :=
  "❌ Access denied. Please ensure your AWS credentials have bedrock:RetrieveAndGenerate permissions."

/-- Text returned for any other `ClientError`:
`f"❌ AWS error ({error_code}): {message}"`. -/
def awsErrorText (code message : String) : String :=
  "❌ AWS error (" ++ code ++ "): " ++ message

/-- Text returned for any other exception: `f"❌ Unexpected error: {e}"`. -/
def unexpectedErrorText (msg : String) : String :=
  "❌ Unexpected error: " ++ msg

/-- `query_knowledge_base(query)` of the phase-2 server, with the backend
call's behaviour passed in as `backend`. -/
def query_knowledge_base (query : String) (backend : BackendOutcome) :
    List TextContent :=
  if pyStrip query = "" then
    [⟨"text", emptyQueryText⟩]
  else
    match backend with
    | .success resp => [⟨"text", formatSuccess query resp⟩]
    | .noCredentials => [⟨"text", noCredentialsText⟩]
    | .clientError code message =>
      if code = "AccessDeniedException" then
        [⟨"text", accessDeniedText⟩]
      else
        [⟨"text", awsErrorText code message⟩]
    | .otherError msg => [⟨"text", unexpectedErrorText msg⟩]

/-- `query_knowledge_base` instrumented with a flag recording whether the
backend call `bedrock_client.retrieve_and_generate` was reached: the call
sits inside the `try` block, which only runs when `query.strip()` is
non-empty. -/
def query_knowledge_base_traced (query : String) (backend : BackendOutcome) :
    List TextContent × Bool :=
  if pyStrip query = "" then
    ([⟨"text", emptyQueryText⟩], false)
  else
    (query_knowledge_base query backend, true)

/-- The single tool descriptor registered by `handle_list_tools`. -/
def queryStrandsDocsTool : Tool :=
  { name := "query_strands_docs"
    description := "Query AWS Strands Agent documentation using Bedrock Knowledge Base"
    inputSchema :=
      { type := "object"
        properties :=
          [("query",
            { type := "string"
              description := "The question or topic to search for in the documentation" })]
        required := ["query"] } }

/-- `handle_list_tools()`: returns the statically registered tool list.
Identical in both server versions. -/
def handle_list_tools : List Tool :=
  [queryStrandsDocsTool]

/-- Outcome of `handle_call_tool`: either the returned content list, or
the `ValueError` it raises for an unknown tool name. -/
inductive CallToolOutcome where
  | result (content : List TextContent)
  | raised (msg : String)
deriving DecidableEq, Repr

/-- `handle_call_tool(name, arguments)` of the phase-2 server.  The
`arguments` dict is modelled as an optional association list; the query is
`arguments.get("query", "") if arguments else ""`. -/
def handle_call_tool (name : String) (arguments : Option (List (String × String)))
    (backend : BackendOutcome) : CallToolOutcome :=
  if name = "query_strands_docs" then
    let query :=
      match arguments with
      | some args => (args.lookup "query").getD ""
      | none => ""
    .result (query_knowledge_base query backend)
  else
    .raised ("Unknown tool: " ++ name)

/-- `handle_call_tool` instrumented with the backend-call flag of
`query_knowledge_base_traced`. -/
def handle_call_tool_traced (name : String)
    (arguments : Option (List (String × String))) (backend : BackendOutcome) :
    CallToolOutcome × Bool :=
  if name = "query_strands_docs" then
    let query :=
      match arguments with
      | some args => (args.lookup "query").getD ""
      | none => ""
    let r := query_knowledge_base_traced query backend
    (.result r.1, r.2)
  else
    (.raised ("Unknown tool: " ++ name), false)

/-- `query_knowledge_base(query)` of the phase-1 server
(`src/src/mcp_bedrock_kb/server.py`): a placeholder that echoes the query. -/
def query_knowledge_base_v01 (query : String) : List TextContent :=
  [⟨"text",
    "Placeholder response for query: " ++ query ++
      "\n\nThis will connect to Bedrock Knowledge Base (ID: QVBQZMYI7R) in the next lesson."⟩]

/-- A reply at the protocol boundary: a tool result, or an error Response. -/
inductive ProtocolReply where
  | toolResult (content : List TextContent)
  | errorResponse (message : String)
deriving DecidableEq, Repr

/-- Modelled from the spec: the `@server.call_tool()` dispatch wrapper lives
in the external `mcp.server` library, not in src/.  Per the spec, lookup by
unknown tool name "yields a distinct unknown-tool condition" surfaced "as a
structured error Response" while the process "continues serving other
requests": a `ValueError` raised by `handle_call_tool` becomes an error
Response instead of terminating the process. -/
def dispatch_call_tool (name : String) (arguments : Option (List (String × String)))
    (backend : BackendOutcome) : ProtocolReply :=
  match handle_call_tool name arguments backend with
  | .result content => .toolResult content
  | .raised msg => .errorResponse msg

/-- The `InitializationOptions(...)` value built in `main()`: the server
name and version (capabilities are opaque to the claims checked here). -/
structure InitializationOptions where
  server_name : String
  server_version : String
deriving DecidableEq, Repr

/-- `InitializationOptions` of the phase-2 server. -/
def initOptions_v02 : InitializationOptions :=
  { server_name := "bedrock-kb", server_version := "0.2.0" }

/-- `InitializationOptions` of the phase-1 server. -/
def initOptions_v01 : InitializationOptions :=
  { server_name := "bedrock-kb", server_version := "0.1.0" }

/-- Client metadata carried by an `initialize` request. -/
structure ClientInfo where
  protocolVersion : String
  clientName : String
  clientVersion : String
deriving DecidableEq, Repr

/-- Server identity carried by the `initialize` Response. -/
structure InitializeResult where
  serverName : String
  serverVersion : String
deriving DecidableEq, Repr

/-- Modelled from the spec: the `initialize` handshake handling lives in the
external `mcp.server` library, not in src/.  Per the spec it "replies with a
Response containing server name, version, and declared server capabilities",
taken from the `InitializationOptions` passed to `server.run`. -/
def handle_initialize (opts : InitializationOptions) (_client : ClientInfo) :
    InitializeResult :=
  { serverName := opts.server_name, serverVersion := opts.server_version }

/-- One rendered source line `f"\n{i}. {source_uri}"`. -/
def renderSourceLine (e : Nat × String) : String :=
  "\n" ++ toString e.1 ++ ". " ++ e.2

/-- The (citation index, uri) pairs contributed by one citation's
reference list, in list order. -/
def refEntries (i : Nat) (refs : List RetrievedReference) : List (Nat × String) :=
  refs.filterMap fun ref => (refUri ref).map fun uri => (i, uri)

/-- The (citation index, uri) pairs of an indexed citation list, in the
order the citations and their references appear. -/
def entryList (l : List (Nat × Citation)) : List (Nat × String) :=
  l.flatMap fun ic =>
    match ic.2.retrievedReferences with
    | some refs => refEntries ic.1 refs
    | none => []

/-- All (citation index, uri) pairs of a citation list, enumerated from 1,
in exactly the order the backend returned them. -/
def citationEntries (cs : List Citation) : List (Nat × String) :=
  entryList (cs.enumFrom 1)

/-- Concatenation of a list of strings, in order. -/
def concatAll : List String → String
  | [] => ""
  | s :: rest => s ++ concatAll rest

/-- The sources section appended to the answer block: empty when the
citations list is absent or empty, otherwise the header followed by each
source line in backend order. -/
def sourcesSuffix : Option (List Citation) → String
  | some cs =>
    if cs.isEmpty then ""
    else "\n\n**Sources**:" ++ concatAll ((citationEntries cs).map renderSourceLine)
  | none => ""

/-! ### General lemmas -/

theorem strData_append (a b : String) : (a ++ b).data = a.data ++ b.data := rfl

theorem stringNeOfCharAt (n : Nat) {s t : String}
    (h : s.data[n]? ≠ t.data[n]?) : s ≠ t :=
  fun he => h (by rw [he])

theorem awsErrorText_charAt (code message : String) (n : Nat) (h : n < 13) :
    (awsErrorText code message).data[n]? = "❌ AWS error (".data[n]? := by
  show ((("❌ AWS error (" ++ code) ++ "): ") ++ message).data[n]? = _
  rw [strData_append, strData_append, strData_append, List.append_assoc,
    List.append_assoc]
  rw [List.getElem?_append_left (by simpa using h)]

theorem unexpectedErrorText_charAt (msg : String) (n : Nat) (h : n < 20) :
    (unexpectedErrorText msg).data[n]? = "❌ Unexpected error: ".data[n]? := by
  show ("❌ Unexpected error: " ++ msg).data[n]? = _
  rw [strData_append, List.getElem?_append_left (by simpa using h)]

theorem concatAll_append (a b : List String) :
    concatAll (a ++ b) = concatAll a ++ concatAll b := by
  induction a with
  | nil => simp [concatAll, String.empty_append]
  | cons s rest ih => simp [concatAll, ih, String.append_assoc]

theorem foldl_appendRefLine (i : Nat) (acc : String)
    (refs : List RetrievedReference) :
    refs.foldl (appendRefLine i) acc
      = acc ++ concatAll ((refEntries i refs).map renderSourceLine) := by
  induction refs generalizing acc with
  | nil => simp [refEntries, concatAll, String.append_empty]
  | cons ref rest ih =>
    cases hru : refUri ref with
    | none =>
      simp [List.foldl_cons, appendRefLine, hru, refEntries,
        List.filterMap_cons, ih]
    | some uri =>
      simp [List.foldl_cons, appendRefLine, hru, refEntries,
        List.filterMap_cons, ih, renderSourceLine, concatAll,
        String.append_assoc]

theorem foldl_appendCitation (acc : String) (l : List (Nat × Citation)) :
    l.foldl appendCitation acc
      = acc ++ concatAll ((entryList l).map renderSourceLine) := by
  induction l generalizing acc with
  | nil => simp [entryList, concatAll, String.append_empty]
  | cons ic rest ih =>
    cases hrr : ic.2.retrievedReferences with
    | none =>
      simp [List.foldl_cons, appendCitation, hrr, entryList,
        List.flatMap_cons, ih]
    | some refs =>
      simp [List.foldl_cons, appendCitation, hrr, entryList,
        List.flatMap_cons, ih, foldl_appendRefLine, concatAll_append,
        String.append_assoc]

theorem formatSuccess_eq (q : String) (resp : KBResponse) :
    formatSuccess q resp
      = ("**Query**: " ++ q ++ "\n\n**Answer**: " ++ resp.outputText)
          ++ sourcesSuffix resp.citations := by
  unfold formatSuccess sourcesSuffix
  cases resp.citations with
  | none => rw [String.append_empty]
  | some cs =>
    by_cases hcs : cs.isEmpty
    · simp [hcs, String.append_empty]
    · simp only [hcs, if_neg, Bool.false_eq_true, not_false_iff]
      rw [foldl_appendCitation, citationEntries, String.append_assoc]

/-! ### Claims -/

/-- C1: for every non-empty query whose backend call raises, the tool
returns a Tool Result (it never propagates the exception), classified into
exactly one of four classes — missing-credentials, access-denied,
other-backend-error (carrying the backend's code and message), or
unclassified-exception — each a distinct text block prefixed with the
visible failure marker, the four texts pairwise distinct. -/
theorem c1_failure_classification (q code credMsg otherMsg excMsg : String)
    (hq : pyStrip q ≠ "") (hcode : code ≠ "AccessDeniedException") :
    (query_knowledge_base q .noCredentials = [⟨"text", noCredentialsText⟩] ∧
      query_knowledge_base q (.clientError "AccessDeniedException" credMsg)
        = [⟨"text", accessDeniedText⟩] ∧
      query_knowledge_base q (.clientError code otherMsg)
        = [⟨"text", awsErrorText code otherMsg⟩] ∧
      query_knowledge_base q (.otherError excMsg)
        = [⟨"text", unexpectedErrorText excMsg⟩]) ∧
    (noCredentialsText.data[0]? = some '❌' ∧
      accessDeniedText.data[0]? = some '❌' ∧
      (awsErrorText code otherMsg).data[0]? = some '❌' ∧
      (unexpectedErrorText excMsg).data[0]? = some '❌') ∧
    (noCredentialsText ≠ accessDeniedText ∧
      noCredentialsText ≠ awsErrorText code otherMsg ∧
      noCredentialsText ≠ unexpectedErrorText excMsg ∧
      accessDeniedText ≠ awsErrorText code otherMsg ∧
      accessDeniedText ≠ unexpectedErrorText excMsg ∧
      awsErrorText code otherMsg ≠ unexpectedErrorText excMsg) := by
  refine ⟨⟨?_, ?_, ?_, ?_⟩, ⟨?_, ?_, ?_, ?_⟩, ?_, ?_, ?_, ?_, ?_, ?_⟩
  · simp [query_knowledge_base, hq]
  · simp [query_knowledge_base, hq]
  · simp [query_knowledge_base, hq, hcode]
  · simp [query_knowledge_base, hq]
  · decide
  · decide
  · rw [awsErrorText_charAt code otherMsg 0 (by omega)]; decide
  · rw [unexpectedErrorText_charAt excMsg 0 (by omega)]; decide
  · decide
  · exact stringNeOfCharAt 6
      (by rw [awsErrorText_charAt code otherMsg 6 (by omega)]; decide)
  · exact stringNeOfCharAt 2
      (by rw [unexpectedErrorText_charAt excMsg 2 (by omega)]; decide)
  · exact stringNeOfCharAt 3
      (by rw [awsErrorText_charAt code otherMsg 3 (by omega)]; decide)
  · exact stringNeOfCharAt 2
      (by rw [unexpectedErrorText_charAt excMsg 2 (by omega)]; decide)
  · exact stringNeOfCharAt 2
      (by rw [awsErrorText_charAt code otherMsg 2 (by omega),
          unexpectedErrorText_charAt excMsg 2 (by omega)]; decide)

/-- Witness for C1 at a concrete non-empty query and a concrete
non-access-denied client error. -/
theorem c1_failure_classification_witness :
    pyStrip "What is MCP?" ≠ "" ∧
      ("ThrottlingException" : String) ≠ "AccessDeniedException" ∧
      query_knowledge_base "What is MCP?"
          (.clientError "ThrottlingException" "slow down")
        = [⟨"text", awsErrorText "ThrottlingException" "slow down"⟩] :=
  ⟨by decide, by decide,
    (c1_failure_classification "What is MCP?" "ThrottlingException" "c"
        "slow down" "e" (by decide) (by decide)).1.2.2.1⟩

/-- C2: for an empty or whitespace-only query, `query_knowledge_base`
returns a single guidance text block and never reaches the backend call. -/
theorem c2_empty_query_guidance (q : String) (b : BackendOutcome)
    (h : pyStrip q = "") :
    query_knowledge_base_traced q b = ([⟨"text", emptyQueryText⟩], false) := by
  simp [query_knowledge_base_traced, h]

/-- Witness for C2 at a whitespace-only query. -/
theorem c2_empty_query_guidance_witness :
    pyStrip " \t " = "" ∧
      query_knowledge_base_traced " \t " .noCredentials
        = ([⟨"text", emptyQueryText⟩], false) :=
  ⟨by decide, c2_empty_query_guidance " \t " .noCredentials (by decide)⟩

/-- C3: on backend success the Tool Result text is the base block followed
by the source lines of all citations, rendered in exactly the order the
backend returned them (`citationEntries` traverses the citation list and
each reference list front to back, preserving ties and duplicates). -/
theorem c3_sources_in_order (q : String) (resp : KBResponse)
    (hq : pyStrip q ≠ "") :
    query_knowledge_base q (.success resp)
      = [⟨"text",
          ("**Query**: " ++ q ++ "\n\n**Answer**: " ++ resp.outputText)
            ++ sourcesSuffix resp.citations⟩] := by
  simp [query_knowledge_base, hq, formatSuccess_eq]

/-- Witness for C3 at a concrete response with two citations, a duplicated
source and a reference with no uri: all lines appear, in backend order. -/
theorem c3_sources_in_order_witness :
    pyStrip "What is X?" ≠ "" ∧
      query_knowledge_base "What is X?"
          (.success
            { outputText := "An answer."
              citations := some
                [{ retrievedReferences := some
                    [{ location := some { s3Location := some { uri := some "s3://docs/a.md" } } },
                     { location := some { s3Location := some { uri := some "s3://docs/a.md" } } }] },
                 { retrievedReferences := some
                    [{ location := some { s3Location := some { uri := none } } }] }] })
        = [⟨"text",
            "**Query**: What is X?\n\n**Answer**: An answer.\n\n**Sources**:\n1. s3://docs/a.md\n1. s3://docs/a.md\n2. Unknown source"⟩] := by
  refine ⟨by decide, ?_⟩
  rw [c3_sources_in_order "What is X?" _ (by decide)]
  decide

/-- C4: for every query and backend outcome the returned Tool Result is a
non-empty sequence of text content blocks. -/
theorem c4_nonempty_wellformed (q : String) (b : BackendOutcome) :
    query_knowledge_base q b ≠ [] ∧
      (query_knowledge_base q b).all (fun c => c.type == "text") = true := by
  unfold query_knowledge_base
  split
  · simp
  · split <;> first
      | (split <;> simp)
      | simp

/-- C5: schema discovery returns exactly the statically registered tool
set in registration order — the single `query_strands_docs` descriptor —
unchanged under any number of repeated calls. -/
theorem c5_list_tools_static :
    handle_list_tools = [queryStrandsDocsTool] ∧
      handle_list_tools.map Tool.name = ["query_strands_docs"] ∧
      ∀ calls : List Unit,
        calls.map (fun _ => handle_list_tools)
          = List.replicate calls.length [queryStrandsDocsTool] := by
  refine ⟨rfl, rfl, ?_⟩
  intro calls
  simp [handle_list_tools, List.map_const]

/-- C6: invoking an unregistered tool name yields a distinct unknown-tool
error identifying the offending name, surfaced at the protocol boundary as
an error Response — a different constructor from every backend-failure
reply, which always arrives as a tool result. -/
theorem c6_unknown_tool (name : String)
    (args : Option (List (String × String))) (b : BackendOutcome)
    (h : name ≠ "query_strands_docs") :
    handle_call_tool name args b = .raised ("Unknown tool: " ++ name) ∧
      dispatch_call_tool name args b
        = .errorResponse ("Unknown tool: " ++ name) ∧
      (∀ content, ProtocolReply.errorResponse ("Unknown tool: " ++ name)
        ≠ .toolResult content) ∧
      ∃ content, dispatch_call_tool "query_strands_docs" args b
        = .toolResult content := by
  refine ⟨?_, ?_, ?_, ?_⟩
  · simp [handle_call_tool, h]
  · simp [dispatch_call_tool, handle_call_tool, h]
  · intro content hc
    exact ProtocolReply.noConfusion hc
  · exact ⟨_, rfl⟩

/-- Witness for C6 at a concrete unregistered tool name. -/
theorem c6_unknown_tool_witness :
    ("does_not_exist" : String) ≠ "query_strands_docs" ∧
      handle_call_tool "does_not_exist" none .noCredentials
        = .raised ("Unknown tool: " ++ "does_not_exist") :=
  ⟨by decide,
    (c6_unknown_tool "does_not_exist" none .noCredentials (by decide)).1⟩

/-- C7: the server name and version carried in the initialize Response are
the constants configured at process start, independent of the client
metadata, for both server versions. -/
theorem c7_initialize_constants :
    (∀ c : ClientInfo, handle_initialize initOptions_v02 c
        = { serverName := "bedrock-kb", serverVersion := "0.2.0" }) ∧
      (∀ c : ClientInfo, handle_initialize initOptions_v01 c
        = { serverName := "bedrock-kb", serverVersion := "0.1.0" }) ∧
      ∀ c c' : ClientInfo,
        handle_initialize initOptions_v02 c
          = handle_initialize initOptions_v02 c' :=
  ⟨fun _ => rfl, fun _ => rfl, fun _ _ => rfl⟩

/-- C8: on backend success the single text block holds the original query
verbatim and the generated answer, with the sources section (possibly
empty) appended after them. -/
theorem c8_success_block (q : String) (resp : KBResponse)
    (hq : pyStrip q ≠ "") :
    ∃ suffix, query_knowledge_base q (.success resp)
      = [⟨"text",
          "**Query**: " ++ q ++ "\n\n**Answer**: " ++ resp.outputText
            ++ suffix⟩] := by
  refine ⟨sourcesSuffix resp.citations, ?_⟩
  simp [query_knowledge_base, hq, formatSuccess_eq]

/-- Witness for C8 at a concrete query and citation-free response. -/
theorem c8_success_block_witness :
    pyStrip "hello" ≠ "" ∧
      ∃ suffix, query_knowledge_base "hello"
          (.success { outputText := "world", citations := none })
        = [⟨"text",
            "**Query**: " ++ "hello" ++ "\n\n**Answer**: " ++ "world"
              ++ suffix⟩] :=
  ⟨by decide,
    c8_success_block "hello" { outputText := "world", citations := none }
      (by decide)⟩

/-- C9: calling the registered tool with no argument mapping, or with a
mapping lacking the `query` key, defaults the query to the empty string:
the guidance Tool Result is returned, no backend call is made, and the
reply is identical to an explicitly empty query. -/
theorem c9_missing_arguments_default (args : Option (List (String × String)))
    (b : BackendOutcome) (h : ∀ l, args = some l → l.lookup "query" = none) :
    handle_call_tool_traced "query_strands_docs" args b
        = (.result [⟨"text", emptyQueryText⟩], false) ∧
      handle_call_tool_traced "query_strands_docs" args b
        = handle_call_tool_traced "query_strands_docs" (some [("query", "")]) b := by
  cases args with
  | none => exact ⟨rfl, rfl⟩
  | some l =>
    have hl := h l rfl
    have h0 : pyStrip "" = "" := by decide
    constructor <;>
      simp [handle_call_tool_traced, query_knowledge_base_traced, hl, h0]

/-- Witness for C9 at an argument mapping lacking the `query` key. -/
theorem c9_missing_arguments_default_witness :
    handle_call_tool_traced "query_strands_docs" (some [("other", "x")])
        .noCredentials
      = (.result [⟨"text", emptyQueryText⟩], false) ∧
      handle_call_tool_traced "query_strands_docs" (some [("other", "x")])
          .noCredentials
        = handle_call_tool_traced "query_strands_docs" (some [("query", "")])
            .noCredentials :=
  c9_missing_arguments_default (some [("other", "x")]) .noCredentials
    (by intro l hl; cases hl; decide)

/-- C10: on every path, both server versions return exactly one content
block and it is a plain-text block. -/
theorem c10_single_text_block :
    (∀ (q : String) (b : BackendOutcome),
      ∃ t, query_knowledge_base q b = [⟨"text", t⟩]) ∧
      ∀ q : String, ∃ t, query_knowledge_base_v01 q = [⟨"text", t⟩] := by
  constructor
  · intro q b
    unfold query_knowledge_base
    split
    · exact ⟨emptyQueryText, rfl⟩
    · cases b with
      | success resp => exact ⟨_, rfl⟩
      | noCredentials => exact ⟨_, rfl⟩
      | clientError code message =>
        by_cases h : code = "AccessDeniedException"
        · exact ⟨accessDeniedText, by simp [h]⟩
        · exact ⟨awsErrorText code message, by simp [h]⟩
      | otherError msg => exact ⟨_, rfl⟩
  · intro q
    exact ⟨_, rfl⟩

end McpBedrockKb
